import Mathlib

/-!
Verification of the call-session dialogue engine of the AI voice agent
(source: src/research/trails.ipynb).  The Python functions are shallowly
embedded as Lean definitions; the language-model collaborator (OpenAI API
calls), the Python standard-library datetime parsers and the database
session are modelled as explicit parameters or state, so that each embedded
function is a total, executable Lean function whose exceptional outcomes
are `Except` values (an uncaught Python exception is `Except.error`).
-/

namespace VoiceAgent

/-- Outcome of one call to the language-model collaborator: either the call
raised an exception (timeout, transport error, rate limit) or it returned
the message content as text.  The embedded functions receive the
collaborator as a function from their request to such an outcome. -/
abbrev CollabResult := Except Unit String

/-- The closed intent set listed in the classifier system prompt of
classify_intent. -/
def intent_labels : List String :=
  ["new_order", "modify_order", "cancel_order", "check_status",
   "general_inquiry", "end_call", "unclear"]

/-- Embedding of the Python str.lower method: lowercase every character. -/
def py_lower (s : String) : String :=
  String.mk (s.data.map Char.toLower)

/-- Embedding of the Python str.strip method: drop whitespace from both
ends of the string. -/
def py_strip (s : String) : String :=
  String.mk
    (((s.data.dropWhile Char.isWhitespace).reverse.dropWhile
        Char.isWhitespace).reverse)

/-- Embedding of classify_intent from the notebook.  The Python body sends
the transcript to the collaborator and returns
response.choices[0].message.content.strip().lower().  There is no
try/except and no membership check on the returned label, so a collaborator
exception propagates and the normalized text is returned whatever it is. -/
def classify_intent (collab : String → CollabResult) (transcript : String) :
    CollabResult :=
  (collab transcript).map (fun content => py_lower (py_strip content))

/-- One exchange of the conversation history as the notebook stores it:
a dict with a customer utterance and, once the assistant replied, an
assistant utterance. -/
structure Exchange where
  customer : String
  assistant : Option String
deriving Repr, DecidableEq

/-- System prompt of generate_response (the persona and business-fact
block).  The exact prose is irrelevant to every verified property; it is a
fixed string constant in the source. -/
def generate_system_prompt : String :=
  "You are an AI assistant for Marios Italian Restaurant."

/-- Message-list assembly of generate_response: system prompt, then for
each history exchange the user turn and the assistant turn when present,
then the current transcript, then an optional order-context system note. -/
def build_messages (transcript : String) (history : List Exchange)
    (order_data : Option String) : List (String × String) :=
  [("system", generate_system_prompt)]
    ++ history.flatMap (fun e =>
        ("user", e.customer) ::
          (match e.assistant with
           | some a => [("assistant", a)]
           | none => []))
    ++ [("user", transcript)]
    ++ (match order_data with
        | some od => [("system", "Customer has an existing order: " ++ od)]
        | none => [])

/-- Embedding of generate_response from the notebook: assemble the message
list and return the collaborator result.  The Python body has no try/except
and no fallback utterance, so a collaborator exception propagates. -/
def generate_response (collab : List (String × String) → CollabResult)
    (transcript : String) (conversation_history : List Exchange)
    (order_data : Option String) : CollabResult :=
  collab (build_messages transcript conversation_history order_data)

/-- One step of the TwiML voice-control document, mirroring the verbs used
by generate_twiml_response: Say, Gather (listen for speech) and Redirect. -/
inductive TwimlStep where
  | say (text : String) (voice : String)
  | gather (input : String) (action : String) (timeout : Nat)
      (speech_timeout : String) (language : String)
  | redirect (target : String)
deriving Repr, DecidableEq

/-- Embedding of generate_twiml_response from the notebook: say the message
with voice Polly.Joanna; when gather_speech is true, append a speech Gather
(action /voice/process-speech, timeout 3, speechTimeout auto, language
en-US) and then a Redirect to /voice/handle-no-input taken when the gather
captured nothing. -/
def generate_twiml_response (ai_message : String) (gather_speech : Bool) :
    List TwimlStep :=
  [TwimlStep.say ai_message "Polly.Joanna"]
    ++ (if gather_speech then
          [TwimlStep.gather "speech" "/voice/process-speech" 3 "auto" "en-US",
           TwimlStep.redirect "/voice/handle-no-input"]
        else [])

/-- Number of Say steps in a document. -/
def countSay (doc : List TwimlStep) : Nat :=
  doc.countP (fun s => match s with | TwimlStep.say _ _ => true | _ => false)

/-- Number of Gather (listen) steps in a document. -/
def countGather (doc : List TwimlStep) : Nat :=
  doc.countP (fun s =>
    match s with | TwimlStep.gather _ _ _ _ _ => true | _ => false)

/-- A sequence of builder invocations, to state that each produced document
depends only on that invocation arguments. -/
def run_twiml_calls (calls : List (String × Bool)) : List (List TwimlStep) :=
  calls.map (fun c => generate_twiml_response c.1 c.2)

/-- One line item of an order as extracted from the conversation: a dict
whose keys item, quantity and special_instructions may each be absent
(outer Option) and whose special_instructions value may be JSON null
(inner Option), exactly as calculate_order_total reads them with
item.get("item", "") and item.get("quantity", 1). -/
structure OrderItem where
  item : Option String
  quantity : Option Int
  special_instructions : Option (Option String)
deriving Repr, DecidableEq

/-- The fixed menu price table of calculate_order_total, in cents. -/
def menu_prices : List (String × Int) :=
  [("margherita pizza", 1600), ("seafood linguine", 2200), ("tiramisu", 800)]

/-- Python menu_prices.get(item_name, 1000): the table price when the name
is a key, else the fixed default of 1000 cents. -/
def menu_price_of (item_name : String) : Int :=
  (((menu_prices.find? (fun p => p.1 == item_name)).map Prod.snd)).getD 1000

/-- Embedding of calculate_order_total from the notebook: fold over the
items, lowercasing each item name (missing name reads as the empty string,
missing quantity as 1) and adding price times quantity. -/
def calculate_order_total (order_items : List OrderItem) : Int :=
  order_items.foldl
    (fun total item =>
      let item_name := py_lower (item.item.getD "")
      let quantity := item.quantity.getD 1
      let price := menu_price_of item_name
      total + price * quantity)
    0

/-- Contribution of a single item to the total, as computed inside the fold
of calculate_order_total. -/
def item_contribution (item : OrderItem) : Int :=
  menu_price_of (py_lower (item.item.getD "")) * item.quantity.getD 1

/-- The order-details dict produced by parse_order_details.  An outer
Option marks whether the key is present in the dict at all; an inner Option
marks a JSON null value.  The parsing_error key exists only on the fallback
draft. -/
structure OrderDetails where
  customer_name : Option (Option String)
  order_items : Option (List OrderItem)
  is_delivery : Option Bool
  address : Option (Option String)
  reservation_time : Option (Option String)
  party_size : Option (Option Int)
  parsing_error : Option Bool
deriving Repr, DecidableEq

/-- The safe fallback draft that parse_order_details returns when
json.loads raises JSONDecodeError: every field present but null or empty,
and parsing_error set to True. -/
def fallback_order_details : OrderDetails :=
  { customer_name := some none
    order_items := some []
    is_delivery := some false
    address := some none
    reservation_time := some none
    party_size := some none
    parsing_error := some true }

/-- Outcome of the structured-output collaborator call made by
parse_order_details: the API call raised, or it returned content whose
json.loads result is either a decode failure (none) or a parsed
order-details value. -/
inductive StructuredResult where
  | raised
  | returned (parsed : Option OrderDetails)
deriving Repr, DecidableEq

/-- Conversation flattening of parse_order_details: one Customer line per
customer utterance, one Assistant line per assistant utterance, then the
current transcript as a final Customer line. -/
def full_conversation (transcript : String) (history : List Exchange) :
    String :=
  (history.foldl
    (fun acc e =>
      acc ++ "Customer: " ++ e.customer ++ "\n"
        ++ (match e.assistant with
            | some a => "Assistant: " ++ a ++ "\n"
            | none => ""))
    "")
    ++ "Customer: " ++ transcript

/-- Embedding of parse_order_details from the notebook: flatten the
conversation, call the structured-output collaborator, and json.loads the
returned content.  Only JSONDecodeError is caught (yielding the fallback
draft); an exception from the API call itself propagates. -/
def parse_order_details (collab : String → StructuredResult)
    (transcript : String) (conversation_history : List Exchange) :
    Except Unit OrderDetails :=
  match collab (full_conversation transcript conversation_history) with
  | StructuredResult.raised => Except.error ()
  | StructuredResult.returned none => Except.ok fallback_order_details
  | StructuredResult.returned (some d) => Except.ok d

/-- Embedding of parse_datetime from the notebook.  The two standard
library parsers datetime.fromisoformat and strptime with format
"%Y-%m-%d %H:%M:%S" are passed as parameters returning Option (a raised
ValueError or TypeError is none; a timestamp is a Nat).  A falsy input
(Python None or the empty string) returns None before any parse is tried;
otherwise the ISO parser is tried first, then the strptime format, and
both failing yields None. -/
def parse_datetime (fromisoformat strptime_ymd_hms : String → Option Nat)
    (datetime_str : Option String) : Option Nat :=
  match datetime_str with
  | none => none
  | some s =>
    if s = "" then none
    else
      match fromisoformat s with
      | some t => some t
      | none =>
        match strptime_ymd_hms s with
        | some t => some t
        | none => none

/-- A persisted row of the orders table, as save_order constructs it.  The
order_items column stores a JSON string; it is modelled by the list it
serializes.  customer_name is an Option because dict.get returns the
present value even when that value is None. -/
structure Order where
  customer_name : Option String
  customer_phone : String
  order_items : List OrderItem
  order_total : Int
  reservation_time : Option Nat
  party_size : Option Int
  status : String
deriving Repr, DecidableEq

/-- Embedding of save_order from the notebook: build the Order row from the
details dict (dict.get defaults: name "Unknown" when the key is absent,
items [] when the key is absent, reservation_time and party_size None when
absent), recompute the total with calculate_order_total at save time,
append the row to the database and return the new autoincrement id. -/
def save_order (fromisoformat strptime_ymd_hms : String → Option Nat)
    (order_details : OrderDetails) (customer_phone : String)
    (db : List Order) : List Order × Nat :=
  let new_order : Order :=
    { customer_name := order_details.customer_name.getD (some "Unknown")
      customer_phone := customer_phone
      order_items := order_details.order_items.getD []
      order_total := calculate_order_total (order_details.order_items.getD [])
      reservation_time :=
        parse_datetime fromisoformat strptime_ymd_hms
          order_details.reservation_time.join
      party_size := order_details.party_size.join
      status := "confirmed" }
  (db ++ [new_order], db.length + 1)

/-- Helper: folding the per-item contribution over a list starting from any
accumulator adds the mapped sum. -/
theorem foldl_item_contribution (items : List OrderItem) (acc : Int) :
    items.foldl (fun total item => total + item_contribution item) acc =
      acc + (items.map item_contribution).sum := by
  induction items generalizing acc with
  | nil => simp
  | cons hd tl ih => simp [ih, add_assoc]

end VoiceAgent

namespace VoiceAgent

/-- Theorem for C3: every built document has exactly one Say step; a Gather
step is present iff gather_speech is true; with gather_speech true the
document is Say, then the 3-second auto-speech-end Gather, then the
Redirect to /voice/handle-no-input; with gather_speech false it is the Say
alone. -/
theorem twiml_document_shape (msg : String) (b : Bool) :
    countSay (generate_twiml_response msg b) = 1
    ∧ countGather (generate_twiml_response msg b) = (if b then 1 else 0)
    ∧ generate_twiml_response msg true =
        [TwimlStep.say msg "Polly.Joanna",
         TwimlStep.gather "speech" "/voice/process-speech" 3 "auto" "en-US",
         TwimlStep.redirect "/voice/handle-no-input"]
    ∧ generate_twiml_response msg false = [TwimlStep.say msg "Polly.Joanna"] := by
  cases b <;>
    simp [generate_twiml_response, countSay, countGather,
      List.countP_cons, List.countP_nil]

/-- Theorem for C9: the builder is a pure function of its two arguments; in
any sequence of invocations, the document produced for a given call is
generate_twiml_response of that call arguments, independent of every call
before or after it, so identical arguments always yield identical documents
and no state is carried across calls. -/
theorem twiml_builder_pure (before after : List (String × Bool))
    (m : String) (b : Bool) :
    run_twiml_calls (before ++ (m, b) :: after) =
      run_twiml_calls before
        ++ generate_twiml_response m b :: run_twiml_calls after := by
  simp [run_twiml_calls]

/-- Counterexample for C1: when the collaborator returns the text BANANA,
classify_intent returns the string banana, which is outside the closed
intent set and is not mapped to unclear. -/
theorem classify_intent_escapes_closed_set :
    classify_intent (fun _ => Except.ok "BANANA") "hello" = Except.ok "banana"
    ∧ ¬ ("banana" ∈ intent_labels)
    ∧ ("banana" : String) ≠ "unclear" := by
  refine ⟨rfl, by decide, by decide⟩

/-- Theorem for C1 (amended): classify_intent returns the collaborator
text stripped of surrounding whitespace and lowercased, whatever that text
is; membership in the closed intent set is not enforced by the code. -/
theorem classify_intent_normalizes (collab : String → CollabResult)
    (transcript content : String) (h : collab transcript = Except.ok content) :
    classify_intent collab transcript =
      Except.ok (py_lower (py_strip content)) := by
  simp [classify_intent, h, Except.map]

/-- Witness for classify_intent_normalizes at a concrete collaborator
output with stray case and whitespace. -/
theorem classify_intent_normalizes_witness :
    classify_intent (fun _ => Except.ok " New_Order ") "hello" =
      Except.ok "new_order" := by
  have h :=
    classify_intent_normalizes (fun _ => Except.ok " New_Order ") "hello"
      " New_Order " rfl
  have e : py_lower (py_strip " New_Order ") = "new_order" := by decide
  rw [e] at h
  exact h

/-- Counterexample for C5: when the collaborator call raises, classify_intent
propagates the error instead of returning an ok outcome carrying unclear. -/
theorem classify_intent_error_not_unclear :
    classify_intent (fun _ => Except.error ()) "hello" = Except.error ()
    ∧ (classify_intent (fun _ => Except.error ()) "hello").isOk = false := by
  refine ⟨rfl, rfl⟩

/-- Theorem for C5 (amended): a collaborator failure propagates out of
classify_intent unchanged; the code has no unclear fallback and no retry. -/
theorem classify_intent_propagates_failure (collab : String → CollabResult)
    (transcript : String) (h : collab transcript = Except.error ()) :
    classify_intent collab transcript = Except.error () := by
  simp [classify_intent, h, Except.map]

/-- Witness for classify_intent_propagates_failure at a concrete failing
collaborator. -/
theorem classify_intent_propagates_failure_witness :
    classify_intent (fun _ => Except.error ()) "order a pizza" =
      Except.error () :=
  classify_intent_propagates_failure (fun _ => Except.error ()) "order a pizza"
    rfl

/-- Counterexample for C6: when the collaborator raises, generate_response
yields an error outcome, not any utterance at all, so no fixed fallback
utterance is produced. -/
theorem generate_response_error_not_utterance :
    generate_response (fun _ => Except.error ()) "hi there"
        [⟨"hi", none⟩] none = Except.error ()
    ∧ (generate_response (fun _ => Except.error ()) "hi there"
        [⟨"hi", none⟩] none).isOk = false := by
  refine ⟨rfl, rfl⟩

/-- Theorem for C6 (amended): a collaborator failure propagates out of
generate_response unchanged; the code has no fixed fallback utterance and
no retry, so the failure reaches the caller instead of the document
builder. -/
theorem generate_response_propagates_failure
    (collab : List (String × String) → CollabResult)
    (transcript : String) (history : List Exchange) (order_data : Option String)
    (h : collab (build_messages transcript history order_data) =
      Except.error ()) :
    generate_response collab transcript history order_data =
      Except.error () := by
  simpa [generate_response] using h

/-- Witness for generate_response_propagates_failure at a concrete failing
collaborator. -/
theorem generate_response_propagates_failure_witness :
    generate_response (fun _ => Except.error ()) "hello" [] none =
      Except.error () :=
  generate_response_propagates_failure (fun _ => Except.error ()) "hello" []
    none rfl

/-- Theorem for C2: calculate_order_total is the sum of price times
quantity over the items; it is deterministic; the lookup depends on the
item name only through its lowercasing, so matching is case-insensitive;
and an item absent from the menu table with quantity 2 contributes the
default price 1000 twice, giving 2000. -/
theorem calculate_order_total_spec :
    (∀ items : List OrderItem,
      calculate_order_total items = (items.map item_contribution).sum)
    ∧ (∀ items₁ items₂ : List OrderItem, items₁ = items₂ →
        calculate_order_total items₁ = calculate_order_total items₂)
    ∧ (∀ (n₁ n₂ : String) (q : Option Int) (ins : Option (Option String)),
        py_lower n₁ = py_lower n₂ →
        calculate_order_total [⟨some n₁, q, ins⟩] =
          calculate_order_total [⟨some n₂, q, ins⟩])
    ∧ calculate_order_total [⟨some "mystery item", some 2, none⟩] = 2000 := by
  refine ⟨?_, ?_, ?_, by decide⟩
  · intro items
    simpa [calculate_order_total, item_contribution] using
      foldl_item_contribution items 0
  · intro items₁ items₂ h
    rw [h]
  · intro n₁ n₂ q ins h
    simp only [calculate_order_total, List.foldl_cons, List.foldl_nil,
      Option.getD_some]
    rw [h]

/-- Witness for calculate_order_total_spec: the case-insensitivity
hypothesis discharged at a mixed-case menu item, which therefore gets the
menu price of its lowercase form. -/
theorem calculate_order_total_spec_witness :
    calculate_order_total [⟨some "Margherita Pizza", some 1, none⟩] =
      calculate_order_total [⟨some "margherita pizza", some 1, none⟩] :=
  calculate_order_total_spec.2.2.1 "Margherita Pizza" "margherita pizza"
    (some 1) none (by decide)

/-- Counterexample for C4: when the collaborator call itself raises (for
example a transport failure), parse_order_details propagates the exception
instead of returning the fallback draft, so extract can raise on a
collaborator outcome. -/
theorem parse_order_details_error_on_raised :
    parse_order_details (fun _ => StructuredResult.raised) "hello" [] =
      Except.error () := rfl

/-- Theorem for C4 (amended): when the collaborator returns a payload that
json.loads cannot decode, parse_order_details returns the safe all-empty
fallback draft, with no customer name, empty item list, delivery false, no
address, no reservation time, no party size, and the parsing-failure flag
set to true; only an exception raised by the collaborator call itself
escapes. -/
theorem parse_order_details_fallback (collab : String → StructuredResult)
    (transcript : String) (history : List Exchange)
    (h : collab (full_conversation transcript history) =
      StructuredResult.returned none) :
    parse_order_details collab transcript history =
      Except.ok fallback_order_details
    ∧ fallback_order_details.parsing_error = some true
    ∧ fallback_order_details.customer_name = some none
    ∧ fallback_order_details.order_items = some []
    ∧ fallback_order_details.is_delivery = some false
    ∧ fallback_order_details.address = some none
    ∧ fallback_order_details.reservation_time = some none
    ∧ fallback_order_details.party_size = some none := by
  refine ⟨?_, rfl, rfl, rfl, rfl, rfl, rfl, rfl⟩
  simp [parse_order_details, h]

/-- Witness for parse_order_details_fallback at a concrete collaborator
returning an undecodable payload. -/
theorem parse_order_details_fallback_witness :
    parse_order_details (fun _ => StructuredResult.returned none)
        "no address was given" [] = Except.ok fallback_order_details :=
  (parse_order_details_fallback (fun _ => StructuredResult.returned none)
    "no address was given" [] rfl).1

/-- Theorem for C7: parse_datetime returns none on a null input, on the
empty string, and whenever both accepted parsers (ISO-8601 and the
strptime format) fail; and any timestamp it returns came from one of those
two parsers, so no other format is accepted, and the function is total
(never raises). -/
theorem parse_datetime_spec
    (fromisoformat strptime_ymd_hms : String → Option Nat) :
    parse_datetime fromisoformat strptime_ymd_hms none = none
    ∧ parse_datetime fromisoformat strptime_ymd_hms (some "") = none
    ∧ (∀ s, fromisoformat s = none → strptime_ymd_hms s = none →
        parse_datetime fromisoformat strptime_ymd_hms (some s) = none)
    ∧ (∀ s t, parse_datetime fromisoformat strptime_ymd_hms (some s) = some t →
        fromisoformat s = some t ∨ strptime_ymd_hms s = some t) := by
  refine ⟨rfl, rfl, ?_, ?_⟩
  · intro s h1 h2
    by_cases hs : s = "" <;> simp [parse_datetime, hs, h1, h2]
  · intro s t h
    by_cases hs : s = ""
    · simp [parse_datetime, hs] at h
    · simp only [parse_datetime, hs, if_false] at h
      cases hfi : fromisoformat s with
      | some t₂ =>
        simp [hfi] at h
        subst h
        exact Or.inl rfl
      | none =>
        cases hst : strptime_ymd_hms s with
        | some t₂ =>
          simp [hfi, hst] at h
          subst h
          exact Or.inr rfl
        | none =>
          simp [hfi, hst] at h

/-- Witness for parse_datetime_spec: with both parsers failing on a
concrete non-date string, the result is none. -/
theorem parse_datetime_spec_witness :
    parse_datetime (fun _ => none) (fun _ => none) (some "next tuesday") =
      none :=
  (parse_datetime_spec (fun _ => none) (fun _ => none)).2.2.1
    "next tuesday" rfl rfl

/-- Theorem for C8: save_order appends exactly one row whose order_total is
calculate_order_total of the draft item list read at save time, which is
also calculate_order_total of the persisted items themselves, so the stored
total is always the recomputation over the line items and the price
table. -/
theorem save_order_total_recomputed
    (fromisoformat strptime_ymd_hms : String → Option Nat)
    (order_details : OrderDetails) (phone : String) (db : List Order) :
    ∃ o : Order,
      (save_order fromisoformat strptime_ymd_hms order_details phone db).1 =
        db ++ [o]
      ∧ o.order_total =
          calculate_order_total (order_details.order_items.getD [])
      ∧ o.order_items = order_details.order_items.getD []
      ∧ o.order_total = calculate_order_total o.order_items := by
  exact ⟨_, rfl, rfl, rfl, rfl⟩

/-- Theorem for C10: when the draft has no customer_name key, save_order
persists the literal name Unknown; when it has no order_items key it
persists the empty item list; and the save still appends a row and returns
the fresh id, so it never fails for lack of a stated name. -/
theorem save_order_defaults
    (fromisoformat strptime_ymd_hms : String → Option Nat)
    (order_details : OrderDetails) (phone : String) (db : List Order)
    (hname : order_details.customer_name = none)
    (hitems : order_details.order_items = none) :
    ∃ o : Order,
      save_order fromisoformat strptime_ymd_hms order_details phone db =
        (db ++ [o], db.length + 1)
      ∧ o.customer_name = some "Unknown"
      ∧ o.order_items = [] := by
  refine ⟨_, rfl, ?_, ?_⟩ <;> simp [save_order, hname, hitems]

/-- Witness for save_order_defaults at a concrete draft whose
customer_name and order_items keys are absent. -/
theorem save_order_defaults_witness :
    ∃ o : Order,
      save_order (fun _ => none) (fun _ => none)
          ⟨none, none, some true, some none, some none, some none, none⟩
          "+15551234567" []
        = ([] ++ [o], List.length ([] : List Order) + 1)
      ∧ o.customer_name = some "Unknown"
      ∧ o.order_items = [] :=
  save_order_defaults (fun _ => none) (fun _ => none)
    ⟨none, none, some true, some none, some none, some none, none⟩
    "+15551234567" [] rfl rfl

end VoiceAgent
